import Mathlib

/-!
Shallow embedding of the Mixboard StagelinQ state-reduction core
(`stagelinq-manager.js`): the loosely-typed JS value model, the per-deck /
mixer / device state tree, the raw path/value dispatcher
(`_processRawStateChange` / `_applyRawDeckState` / `_applyMixerState`), the
player-status merger (`_applyPlayerStatus` / `_resolveDeckNumber`), the key
index table (`KEY_MAP`) and the reset performed by `stop`.

JS numbers are modelled as rationals (ℚ); `parseInt` / `parseFloat` /
`Number` returning NaN are modelled as `Option` (`none` = NaN).  String
numeric parsing models the decimal forms `[+-]digits[.digits]`; exponent
and whitespace forms, which never occur in this protocol, are not modelled.
-/

namespace Mixboard

/-- A loosely-typed JS value as delivered by the protocol adapter:
a number, a string, a boolean, or null.  Absence (`undefined`) is
modelled by `Option` at each use site. -/
inductive Value where
  | num  (q : ℚ)
  | str  (s : String)
  | bool (b : Bool)
  | null
  deriving DecidableEq

/-- JS truthiness (`!!v`, `if (v)`): 0, empty string, false and null are
falsy, everything else is truthy. -/
def jsTruthy : Value → Bool
  | .num q  => q ≠ 0
  | .str s  => s ≠ ""
  | .bool b => b
  | .null   => false

/-- Digits of a decimal string prefix: consumes leading digits, returning
the accumulated natural number (if at least one digit was seen) and the
remaining characters. -/
def takeDigits : List Char → Option ℕ → Option ℕ × List Char
  | [], acc => (acc, [])
  | c :: cs, acc =>
    if c.isDigit then
      takeDigits cs (some ((acc.getD 0) * 10 + (c.toNat - '0'.toNat)))
    else (acc, c :: cs)

/-- Parse an optional sign, returning the sign (+1 / -1) and the rest. -/
def takeSign : List Char → Int × List Char
  | '-' :: cs => (-1, cs)
  | '+' :: cs => (1, cs)
  | cs => (1, cs)

/-- Model of JS `parseInt` on a string: optional sign then leading digits;
`none` models NaN (no leading digits). Parsing stops at the first
non-digit (in particular at a decimal point). -/
def strParseInt (s : String) : Option Int :=
  let (sg, cs) := takeSign s.data
  match takeDigits cs none with
  | (some n, _) => some (sg * n)
  | (none, _) => none

/-- Fractional part: digits `ds` after the decimal point as a rational. -/
def fracOfDigits (ds : List Char) : ℚ :=
  (ds.filter Char.isDigit).foldr (fun c acc => ((c.toNat - '0'.toNat : ℕ) + acc) / 10) 0

/-- Model of JS `parseFloat` on a string: optional sign, leading digits,
optional `.digits` fraction; `none` models NaN. -/
def strParseFloat (s : String) : Option ℚ :=
  let (sg, cs) := takeSign s.data
  match takeDigits cs none with
  | (some n, rest) =>
    match rest with
    | '.' :: ds =>
      -- the digits consumed after the point form the fraction
      some ((sg : ℚ) * (n + fracOfDigits (ds.take (ds.length - (takeDigits ds none).2.length))))
    | _ => some ((sg : ℚ) * n)
  | (none, _) => none

/-- Truncation toward zero, as JS `parseInt` applied to a number. -/
def jsTrunc (q : ℚ) : Int := q.num.tdiv q.den

/-- JS `parseInt(v)` (`none` = NaN): numbers truncate toward zero, strings
parse a leading integer, booleans and null stringify to non-numeric text. -/
def jsParseInt : Value → Option Int
  | .num q => some (jsTrunc q)
  | .str s => strParseInt s
  | .bool _ => none
  | .null => none

/-- JS `parseFloat(v)` (`none` = NaN). -/
def jsParseFloat : Value → Option ℚ
  | .num q => some q
  | .str s => strParseFloat s
  | .bool _ => none
  | .null => none

/-- JS `parseFloat(v) || 0`: NaN (and 0 itself) collapse to 0. -/
def jsParseFloatD (v : Value) : ℚ := (jsParseFloat v).getD 0

/-- JS `parseInt(v) || 0`. -/
def jsParseIntD (v : Value) : Int := (jsParseInt v).getD 0

/-- JS `Number(v)` (`none` = NaN): null is 0, booleans are 0/1, the empty
string is 0, other strings parse as a full number (modelled by the same
decimal parser as `parseFloat`). -/
def jsNumber : Value → Option ℚ
  | .num q => some q
  | .str s => if s = "" then some 0 else strParseFloat s
  | .bool b => some (if b then 1 else 0)
  | .null => some 0

/-- JS `String(v)` for the values this protocol sends: integral numbers
print their integer, booleans print true/false, null prints null. -/
def jsToString : Value → String
  | .num q => if q.den = 1 then toString q.num else toString q
  | .str s => s
  | .bool b => if b then "true" else "false"
  | .null => "null"

/-- JS `Number(v) > 0` (as used by the KeyLock coercion and as the
numeric comparison `v > 0`): NaN compares false. -/
def jsGtZero (v : Value) : Bool :=
  match jsNumber v with
  | some q => 0 < q
  | none => false

/-! ## The state tree (`_createEmptyState`) -/

/-- One deck's record, mirroring the `emptyDeck()` literal field for field.
JS numbers are ℚ; `currentKeyIndex` is `Option Int` because `parseInt` can
store NaN there (`none`); `artwork` / `jogColor` hold arbitrary JS values
(initially null); `hotcues` is the sparse index → descriptor map that JS
creates lazily (an absent map is observationally the all-`none` map). -/
structure DeckState where
  trackName : String
  artistName : String
  songName : String
  trackLength : ℚ
  trackUri : String
  trackNetworkPath : String
  sampleRate : ℚ
  songLoaded : Bool
  songAnalyzed : Bool
  artwork : Value
  play : Bool
  playState : Bool
  currentPosition : ℚ
  currentBPM : ℚ
  trackBPM : ℚ
  speed : ℚ
  speedRange : ℚ
  syncMode : ℚ
  deckIsMaster : Bool
  masterTempo : ℚ
  currentKeyIndex : Option Int
  currentKey : String
  keyLock : Bool
  externalScratchWheelTouch : Bool
  externalMixerVolume : ℚ
  cuePosition : ℚ
  cuePositionRaw : ℚ
  loopEnableState : Bool
  currentLoopInPosition : ℚ
  currentLoopOutPosition : ℚ
  currentLoopSizeInBeats : ℚ
  trackLengthRaw : ℚ
  loopInRaw : ℚ
  loopOutRaw : ℚ
  beatPosition : ℚ
  totalBeats : ℚ
  dbSourceName : String
  trackPath : String
  jogColor : Value
  hotcues : Int → Option Value

/-- `emptyDeck()` from `_createEmptyState`. -/
def emptyDeck : DeckState where
  trackName := ""
  artistName := ""
  songName := ""
  trackLength := 0
  trackUri := ""
  trackNetworkPath := ""
  sampleRate := 0
  songLoaded := false
  songAnalyzed := false
  artwork := .null
  play := false
  playState := false
  currentPosition := 0
  currentBPM := 0
  trackBPM := 0
  speed := 0
  speedRange := 0
  syncMode := 0
  deckIsMaster := false
  masterTempo := 0
  currentKeyIndex := some (-1)
  currentKey := ""
  keyLock := false
  externalScratchWheelTouch := false
  externalMixerVolume := 0
  cuePosition := 0
  cuePositionRaw := 0
  loopEnableState := false
  currentLoopInPosition := 0
  currentLoopOutPosition := 0
  currentLoopSizeInBeats := 0
  trackLengthRaw := 0
  loopInRaw := 0
  loopOutRaw := 0
  beatPosition := 0
  totalBeats := 0
  dbSourceName := ""
  trackPath := ""
  jogColor := .null
  hotcues := fun _ => none

/-- The four deck slots (`state.decks`, keys 1..4). -/
structure Decks where
  d1 : DeckState
  d2 : DeckState
  d3 : DeckState
  d4 : DeckState

/-- JS `state.decks[n]` (undefined for any key other than 1..4). -/
def Decks.get? (ds : Decks) (n : Int) : Option DeckState :=
  if n = 1 then some ds.d1
  else if n = 2 then some ds.d2
  else if n = 3 then some ds.d3
  else if n = 4 then some ds.d4
  else none

/-- Writing deck slot `n` (a write to a key other than 1..4 creates no
tracked slot and is never performed by the guarded callers). -/
def Decks.set (ds : Decks) (n : Int) (d : DeckState) : Decks :=
  if n = 1 then { ds with d1 := d }
  else if n = 2 then { ds with d2 := d }
  else if n = 3 then { ds with d3 := d }
  else if n = 4 then { ds with d4 := d }
  else ds

/-- `state.mixer`. -/
structure Mixer where
  ch1Fader : ℚ
  ch2Fader : ℚ
  ch3Fader : ℚ
  ch4Fader : ℚ
  crossfader : ℚ

/-- `state.device`. -/
structure Device where
  name : String
  ip : String
  softwareName : String
  softwareVersion : String
  connectionState : String
  deckCount : Int
  hasSDCard : Bool
  hasUsb : Bool
  activeDeck : Int

/-- The whole state tree owned by the manager. -/
structure AppState where
  decks : Decks
  mixer : Mixer
  device : Device

/-- `_createEmptyState()`. -/
def createEmptyState : AppState where
  decks := { d1 := emptyDeck, d2 := emptyDeck, d3 := emptyDeck, d4 := emptyDeck }
  mixer := { ch1Fader := 0, ch2Fader := 0, ch3Fader := 0, ch4Fader := 0, crossfader := 1/2 }
  device :=
    { name := "", ip := "", softwareName := "", softwareVersion := ""
      connectionState := "disconnected", deckCount := 2
      hasSDCard := false, hasUsb := false, activeDeck := 1 }

/-- The state-tree effect of `stop()` (and of the reset performed on
mode switch via `restart`): the tree is replaced wholesale by a freshly
created empty state, whatever it held before. -/
def stopState (_s : AppState) : AppState := createEmptyState

/-! ## Key index table (`KEY_MAP`) -/

/-- The `KEY_MAP` object literal: integer key index → Camelot/Open-Key
label; lookup of any other index is undefined (`none`). -/
def KEY_MAP (i : Int) : Option String :=
  if i = 0 then some "1A (A♭m)" else if i = 1 then some "1B (B)"
  else if i = 2 then some "2A (E♭m)" else if i = 3 then some "2B (F♯)"
  else if i = 4 then some "3A (B♭m)" else if i = 5 then some "3B (D♭)"
  else if i = 6 then some "4A (Fm)" else if i = 7 then some "4B (A♭)"
  else if i = 8 then some "5A (Cm)" else if i = 9 then some "5B (E♭)"
  else if i = 10 then some "6A (Gm)" else if i = 11 then some "6B (B♭)"
  else if i = 12 then some "7A (Dm)" else if i = 13 then some "7B (F)"
  else if i = 14 then some "8A (Am)" else if i = 15 then some "8B (C)"
  else if i = 16 then some "9A (Em)" else if i = 17 then some "9B (G)"
  else if i = 18 then some "10A (Bm)" else if i = 19 then some "10B (D)"
  else if i = 20 then some "11A (F♯m)" else if i = 21 then some "11B (A)"
  else if i = 22 then some "12A (D♭m)" else if i = 23 then some "12B (E)"
  else none

/-- `KEY_MAP[i] || ''`: the key-label resolution used in the
`CurrentKeyIndex` case (an integer `i`; the NaN case is handled at the
call site). -/
def keyLabel (i : Int) : String := (KEY_MAP i).getD ""

/-! ## Deck state reducer (`_applyRawDeckState` switch body) -/

/-- `String(value || '')`: the coercion used for string-valued deck
fields. -/
def jsStrOrEmpty (v : Value) : String := if jsTruthy v then jsToString v else ""

/-- The body of `_applyRawDeckState`'s switch: apply one raw
(field, value) update to a deck record.  Unrecognized keys are no-ops. -/
def applyRawDeckField (deck : DeckState) (key : String) (v : Value) : DeckState :=
  if key = "ArtistName" then { deck with artistName := jsStrOrEmpty v }
  else if key = "SongName" then
    { deck with songName := jsStrOrEmpty v, trackName := jsStrOrEmpty v }
  else if key = "TrackName" then { deck with trackUri := jsStrOrEmpty v }
  else if key = "TrackLength" then
    let raw := jsParseFloatD v
    { deck with trackLengthRaw := raw
                trackLength := if 0 < deck.sampleRate then raw / deck.sampleRate else 0 }
  else if key = "TrackUri" then { deck with trackUri := jsStrOrEmpty v }
  else if key = "TrackNetworkPath" then { deck with trackNetworkPath := jsStrOrEmpty v }
  else if key = "SampleRate" then
    let sr : ℚ := (jsParseIntD v : Int)
    let d := { deck with sampleRate := sr }
    if 0 < sr then
      let d := if d.trackLengthRaw ≠ 0 then { d with trackLength := d.trackLengthRaw / sr } else d
      let d := if d.cuePositionRaw ≠ 0 then { d with cuePosition := d.cuePositionRaw / sr } else d
      let d := if d.loopInRaw ≠ 0 then { d with currentLoopInPosition := d.loopInRaw / sr } else d
      if d.loopOutRaw ≠ 0 then { d with currentLoopOutPosition := d.loopOutRaw / sr } else d
    else d
  else if key = "SongLoaded" then { deck with songLoaded := jsTruthy v }
  else if key = "SongAnalyzed" then { deck with songAnalyzed := jsTruthy v }
  else if key = "Play" then { deck with play := jsTruthy v }
  else if key = "PlayState" then { deck with playState := jsTruthy v }
  else if key = "PlayStatePath" then
    let pathVal := jsParseFloatD v
    if 0 ≤ pathVal ∧ pathVal ≤ 1 ∧ 0 < deck.trackLength then
      { deck with currentPosition := pathVal * deck.trackLength }
    else if 1 < pathVal then
      { deck with currentPosition := if 0 < deck.sampleRate then pathVal / deck.sampleRate else 0 }
    else deck
  else if key = "CurrentBPM" then { deck with currentBPM := jsParseFloatD v }
  else if key = "TrackBPM" then { deck with trackBPM := jsParseFloatD v }
  else if key = "Speed" then { deck with speed := jsParseFloatD v }
  else if key = "SpeedRange" then { deck with speedRange := jsParseFloatD v }
  else if key = "SyncMode" then { deck with syncMode := (jsParseIntD v : Int) }
  else if key = "DeckIsMaster" then { deck with deckIsMaster := jsTruthy v }
  else if key = "MasterTempo" then { deck with masterTempo := jsParseFloatD v }
  else if key = "CurrentKeyIndex" then
    let ki := jsParseInt v
    { deck with currentKeyIndex := ki
                currentKey := match ki with
                  | some i => keyLabel i
                  | none => "" }
  else if key = "KeyLock" then { deck with keyLock := v = .bool true ∨ jsGtZero v }
  else if key = "ExternalScratchWheelTouch" then
    { deck with externalScratchWheelTouch := jsTruthy v }
  else if key = "ExternalMixerVolume" then { deck with externalMixerVolume := jsParseFloatD v }
  else if key = "CuePosition" then
    let raw := jsParseFloatD v
    { deck with cuePositionRaw := raw
                cuePosition := if 0 < deck.sampleRate then raw / deck.sampleRate else 0 }
  else if key = "LoopEnableState" then { deck with loopEnableState := jsTruthy v }
  else if key = "CurrentLoopInPosition" then
    let raw := jsParseFloatD v
    { deck with loopInRaw := raw
                currentLoopInPosition := if 0 < deck.sampleRate then raw / deck.sampleRate else 0 }
  else if key = "CurrentLoopOutPosition" then
    let raw := jsParseFloatD v
    { deck with loopOutRaw := raw
                currentLoopOutPosition := if 0 < deck.sampleRate then raw / deck.sampleRate else 0 }
  else if key = "CurrentLoopSizeInBeats" then
    { deck with currentLoopSizeInBeats := jsParseFloatD v }
  else deck

/-- `_applyRawDeckState` itself: guard on the tracked deck slot (callers
check `this.state.decks[deckNum]`), then mutate exactly that slot. -/
def applyRawDeckUpdate (s : AppState) (deckNum : Int) (key : String) (v : Value) : AppState :=
  match s.decks.get? deckNum with
  | some deck => { s with decks := s.decks.set deckNum (applyRawDeckField deck key v) }
  | none => s

/-! ## Mixer reducer (`_applyMixerState`) -/

/-- `_applyMixerState`: five recognized fader keys; anything else is a
no-op. -/
def applyMixerField (m : Mixer) (key : String) (v : Value) : Mixer :=
  if key = "CH1faderPosition" then { m with ch1Fader := jsParseFloatD v }
  else if key = "CH2faderPosition" then { m with ch2Fader := jsParseFloatD v }
  else if key = "CH3faderPosition" then { m with ch3Fader := jsParseFloatD v }
  else if key = "CH4faderPosition" then { m with ch4Fader := jsParseFloatD v }
  else if key = "CrossfaderPosition" then { m with crossfader := jsParseFloatD v }
  else m

/-- Mixer updates routed by the dispatcher touch only the mixer record. -/
def applyMixerUpdate (s : AppState) (key : String) (v : Value) : AppState :=
  { s with mixer := applyMixerField s.mixer key v }

/-! ## Path dispatcher (`_processRawStateChange`)

The JS dispatcher classifies paths with unanchored regexes
(`/\/Engine\/Deck(\d)\/(.*)/` etc.), `String.prototype.includes` and
`String.prototype.replace` (first occurrence).  These are modelled by
character-list scanners below. -/

/-- Strip a literal character sequence from the front, or fail. -/
def stripLit : List Char → List Char → Option (List Char)
  | [], cs => some cs
  | _ :: _, [] => none
  | p :: ps, c :: cs => if p = c then stripLit ps cs else none

/-- Leftmost-match scan: try a matcher at every start position (as an
unanchored regex search does). -/
def scanFor (f : List Char → Option α) : List Char → Option α
  | [] => f []
  | c :: cs =>
    match f (c :: cs) with
    | some r => some r
    | none => scanFor f cs

/-- Try `lit ++ digit ++ "/" ++ rest` at the current position, yielding
the digit's value and the rest (model of `lit(\d)\/(.*)`). -/
def tryDeckPat (lit : List Char) (cs : List Char) : Option (Int × List Char) :=
  match stripLit lit cs with
  | some (d :: '/' :: rest) => if d.isDigit then some ((d.toNat - '0'.toNat : ℕ), rest) else none
  | _ => none

/-- Model of `path.match(/\/Engine\/Deck(\d)\/(.*)/)`. -/
def matchEngineDeck (path : String) : Option (Int × String) :=
  (scanFor (tryDeckPat "/Engine/Deck".data) path.data).map fun p => (p.1, ⟨p.2⟩)

/-- Model of `path.match(/\/Client\/Deck(\d)\/(.*)/)`. -/
def matchClientDeck (path : String) : Option (Int × String) :=
  (scanFor (tryDeckPat "/Client/Deck".data) path.data).map fun p => (p.1, ⟨p.2⟩)

/-- Model of `path.match(/\/Mixer\/(.*)/)`. -/
def matchMixer (path : String) : Option String :=
  (scanFor (stripLit "/Mixer/".data) path.data).map fun cs => (⟨cs⟩ : String)

/-- Model of `s.includes(sub)`. -/
def containsSub (sub s : String) : Bool :=
  (scanFor (stripLit sub.data) s.data).isSome

/-- Model of `s.replace(lit, '')`: remove the first occurrence of `lit`. -/
def removeFirst (lit : List Char) : List Char → List Char
  | [] => []
  | c :: cs =>
    match stripLit lit (c :: cs) with
    | some rest => rest
    | none => c :: removeFirst lit cs

/-- The `Track/` field-name normalization applied in the engine-deck
branch: `Track/CurrentBPM` is remapped to the distinct `TrackBPM` field,
every other key has its first `Track/` removed. -/
def normalizeEngineKey (key : String) : String :=
  if key = "Track/CurrentBPM" then "TrackBPM"
  else ⟨removeFirst "Track/".data key.data⟩

/-- `parseInt(value) || 2` for the DeckCount branch. -/
def parseDeckCount (v : Value) : Int :=
  match jsParseInt v with
  | some n => if n = 0 then 2 else n
  | none => 2

/-- The ActiveDeck branch: `String(value)`; if it contains `Deck`, parse
the digits after removing the first `Deck`, else parse directly; either
way `|| 1`. -/
def parseActiveDeck (v : Value) : Int :=
  let strVal := jsToString v
  let parsed :=
    if containsSub "Deck" strVal then strParseInt ⟨removeFirst "Deck".data strVal.data⟩
    else strParseInt strVal
  match parsed with
  | some n => if n = 0 then 1 else n
  | none => 1

/-- `_processRawStateChange`: classify the path and route.  The branches
run in source order; the DeckCount branch does not return, so a matching
path falls through to the remaining branches as in the source. -/
def processRawStateChange (s : AppState) (path : String) (v : Value) : AppState :=
  if path = "" then s
  else match matchEngineDeck path with
  | some (deckNum, rest) => applyRawDeckUpdate s deckNum (normalizeEngineKey rest) v
  | none =>
  match matchMixer path with
  | some key => applyMixerUpdate s key v
  | none =>
  let s :=
    if containsSub "DeckCount" path then
      { s with device := { s.device with deckCount := parseDeckCount v } }
    else s
  match matchClientDeck path with
  | some (deckNum, key) => applyRawDeckUpdate s deckNum key v
  | none =>
  if path = "/Client/Librarian/DevicesController/HasSDCardConnected" then
    { s with device := { s.device with hasSDCard := jsTruthy v } }
  else if path = "/Client/Librarian/DevicesController/HasUsbDeviceConnected" then
    { s with device := { s.device with hasUsb := jsTruthy v } }
  else if path = "/GUI/Decks/Deck/ActiveDeck" then
    { s with device := { s.device with activeDeck := parseActiveDeck v } }
  else s

/-! ## Player-status merger (`_applyPlayerStatus` / `_resolveDeckNumber`)

The status object delivered by the upstream library has typed optional
fields (its shape is documented in the source comment); `deck`, `player`,
the hotcue descriptors and `jogColor` stay loosely typed because the
merger inspects them with JS truthiness / string conversion. -/

structure PlayerStatus where
  deck : Option Value := none
  player : Option Value := none
  title : Option String := none
  artist : Option String := none
  songLoaded : Option Bool := none
  play : Option Bool := none
  playState : Option Bool := none
  masterStatus : Option Bool := none
  currentBpm : Option ℚ := none
  trackBpm : Option ℚ := none
  speed : Option ℚ := none
  syncMode : Option ℚ := none
  masterTempo : Option ℚ := none
  externalMixerVolume : Option ℚ := none
  trackNetworkPath : Option String := none
  trackPath : Option String := none
  fileLocation : Option String := none
  dbSourceName : Option String := none
  address : Option String := none
  source : Option String := none
  jogColor : Option Value := none
  hotcue1 : Option Value := none
  hotcue2 : Option Value := none
  hotcue3 : Option Value := none
  hotcue4 : Option Value := none
  hotcue5 : Option Value := none
  hotcue6 : Option Value := none
  hotcue7 : Option Value := none
  hotcue8 : Option Value := none

/-- `status['hotcue' + i]`. -/
def PlayerStatus.hotcueAt (st : PlayerStatus) (i : Int) : Option Value :=
  if i = 1 then st.hotcue1 else if i = 2 then st.hotcue2
  else if i = 3 then st.hotcue3 else if i = 4 then st.hotcue4
  else if i = 5 then st.hotcue5 else if i = 6 then st.hotcue6
  else if i = 7 then st.hotcue7 else if i = 8 then st.hotcue8
  else none

/-- The deck-letter/number map in `_resolveDeckNumber`. -/
def deckLetterMap (s : String) : Option Int :=
  if s = "A" then some 1 else if s = "B" then some 2
  else if s = "C" then some 3 else if s = "D" then some 4
  else if s = "1" then some 1 else if s = "2" then some 2
  else if s = "3" then some 3 else if s = "4" then some 4
  else none

/-- `_resolveDeckNumber`: a truthy `deck` field resolves through the
letter map (`|| null`); otherwise a truthy `player` field resolves via
`parseInt(player) || null`; otherwise null. -/
def resolveDeckNumber (st : PlayerStatus) : Option Int :=
  let viaPlayer : Option Int :=
    match st.player with
    | some pv =>
      if jsTruthy pv then
        match jsParseInt pv with
        | some n => if n = 0 then none else some n
        | none => none
      else none
    | none => none
  match st.deck with
  | some dv => if jsTruthy dv then deckLetterMap (jsToString dv) else viaPlayer
  | none => viaPlayer

/-- One step of the hotcue loop: `if (status[hKey]) deck.hotcues[i] = status[hKey]`. -/
def applyHotcue (st : PlayerStatus) (m : Int → Option Value) (i : Int) : Int → Option Value :=
  match st.hotcueAt i with
  | some v => if jsTruthy v then Function.update m i (some v) else m
  | none => m

/-- The per-deck body of `_applyPlayerStatus`: presence-based field merge
in source order, the strictly-positive BPM guards, the title mirroring,
the trackPath/fileLocation interplay on `trackUri`, and the hotcue loop. -/
def mergeStatusDeck (deck : DeckState) (st : PlayerStatus) : DeckState :=
  let d := match st.title with | some t => { deck with trackName := t } | none => deck
  let d := match st.title with | some t => { d with songName := t } | none => d
  let d := match st.artist with | some a => { d with artistName := a } | none => d
  let d := match st.songLoaded with | some b => { d with songLoaded := b } | none => d
  let d := match st.play with | some b => { d with play := b } | none => d
  let d := match st.playState with | some b => { d with playState := b } | none => d
  let d := match st.currentBpm with
    | some q => if 0 < q then { d with currentBPM := q } else d
    | none => d
  let d := match st.trackBpm with
    | some q => if 0 < q then { d with trackBPM := q } else d
    | none => d
  let d := match st.speed with | some q => { d with speed := q } | none => d
  let d := match st.syncMode with | some q => { d with syncMode := q } | none => d
  let d := match st.masterStatus with | some b => { d with deckIsMaster := b } | none => d
  let d := match st.masterTempo with | some q => { d with masterTempo := q } | none => d
  let d := match st.externalMixerVolume with
    | some q => { d with externalMixerVolume := q }
    | none => d
  let d := match st.trackNetworkPath with
    | some t => { d with trackNetworkPath := t }
    | none => d
  let d := match st.trackPath with
    | some p => { d with trackPath := p, trackUri := p }
    | none => d
  let d := match st.fileLocation with
    | some f => { d with trackUri := if f ≠ "" then f else d.trackUri }
    | none => d
  let d := match st.dbSourceName with | some x => { d with dbSourceName := x } | none => d
  let d := match st.jogColor with | some j => { d with jogColor := j } | none => d
  { d with hotcues := [1, 2, 3, 4, 5, 6, 7, 8].foldl (applyHotcue st) d.hotcues }

/-- `_applyPlayerStatus`: resolve the deck number; a falsy or untracked
deck number drops the whole update; otherwise merge into that deck and
opportunistically refresh the device identity fields. -/
def applyPlayerStatus (s : AppState) (st : PlayerStatus) : AppState :=
  match resolveDeckNumber st with
  | none => s
  | some n =>
    if n = 0 then s
    else
      match s.decks.get? n with
      | none => s
      | some deck =>
        let s := { s with decks := s.decks.set n (mergeStatusDeck deck st) }
        let s := match st.address with
          | some a => if a ≠ "" then { s with device := { s.device with ip := a } } else s
          | none => s
        match st.source with
        | some src => if src ≠ "" then { s with device := { s.device with name := src } } else s
        | none => s

/-- Whether the hotcue-`i` field of a status object is present and truthy
(the condition `if (status['hotcue' + i])` of the hotcue loop). -/
def hotcueTruthy (st : PlayerStatus) (i : Int) : Bool :=
  match st.hotcueAt i with
  | some v => jsTruthy v
  | none => false

/-- A status update for deck A carrying only hotcue descriptors: the
input family used to state the hotcue-merge claim. -/
def hotcueStatus (h1 h2 h3 h4 h5 h6 h7 h8 : Option Value) : PlayerStatus :=
  { deck := some (.str "A"), hotcue1 := h1, hotcue2 := h2, hotcue3 := h3, hotcue4 := h4,
    hotcue5 := h5, hotcue6 := h6, hotcue7 := h7, hotcue8 := h8 }

/-! ## Helper lemmas -/

theorem Decks.get_set_ne (ds : Decks) (n m : Int) (d : DeckState) (h : m ≠ n) :
    (ds.set n d).get? m = ds.get? m := by
  unfold Decks.set Decks.get?
  split_ifs <;> simp_all

theorem applyRaw_TL_trackLength (d : DeckState) (v : Value) :
    (applyRawDeckField d "TrackLength" v).trackLength
      = if 0 < d.sampleRate then jsParseFloatD v / d.sampleRate else 0 := by
  simp [applyRawDeckField]

theorem applyRaw_TL_raw (d : DeckState) (v : Value) :
    (applyRawDeckField d "TrackLength" v).trackLengthRaw = jsParseFloatD v := by
  simp [applyRawDeckField]

theorem applyRaw_Cue_cuePosition (d : DeckState) (v : Value) :
    (applyRawDeckField d "CuePosition" v).cuePosition
      = if 0 < d.sampleRate then jsParseFloatD v / d.sampleRate else 0 := by
  simp [applyRawDeckField]

theorem applyRaw_Cue_raw (d : DeckState) (v : Value) :
    (applyRawDeckField d "CuePosition" v).cuePositionRaw = jsParseFloatD v := by
  simp [applyRawDeckField]

theorem applyRaw_LoopIn_pos (d : DeckState) (v : Value) :
    (applyRawDeckField d "CurrentLoopInPosition" v).currentLoopInPosition
      = if 0 < d.sampleRate then jsParseFloatD v / d.sampleRate else 0 := by
  simp [applyRawDeckField]

theorem applyRaw_LoopIn_raw (d : DeckState) (v : Value) :
    (applyRawDeckField d "CurrentLoopInPosition" v).loopInRaw = jsParseFloatD v := by
  simp [applyRawDeckField]

theorem applyRaw_LoopOut_pos (d : DeckState) (v : Value) :
    (applyRawDeckField d "CurrentLoopOutPosition" v).currentLoopOutPosition
      = if 0 < d.sampleRate then jsParseFloatD v / d.sampleRate else 0 := by
  simp [applyRawDeckField]

theorem applyRaw_LoopOut_raw (d : DeckState) (v : Value) :
    (applyRawDeckField d "CurrentLoopOutPosition" v).loopOutRaw = jsParseFloatD v := by
  simp [applyRawDeckField]

/-- The `SampleRate` branch of `applyRawDeckField`, spelled out (the
string comparisons of the dispatch chain reduce definitionally). -/
theorem applyRaw_SR_eq (d : DeckState) (v : Value) :
    applyRawDeckField d "SampleRate" v =
      (let sr : ℚ := (jsParseIntD v : Int)
       let e1 := { d with sampleRate := sr }
       if 0 < sr then
         let e2 := if e1.trackLengthRaw ≠ 0 then { e1 with trackLength := e1.trackLengthRaw / sr } else e1
         let e3 := if e2.cuePositionRaw ≠ 0 then { e2 with cuePosition := e2.cuePositionRaw / sr } else e2
         let e4 := if e3.loopInRaw ≠ 0 then { e3 with currentLoopInPosition := e3.loopInRaw / sr } else e3
         if e4.loopOutRaw ≠ 0 then { e4 with currentLoopOutPosition := e4.loopOutRaw / sr } else e4
       else e1) := rfl

theorem applyRaw_SR_sr (d : DeckState) (v : Value) :
    (applyRawDeckField d "SampleRate" v).sampleRate = ((jsParseIntD v : Int) : ℚ) := by
  rw [applyRaw_SR_eq]
  simp only []
  split_ifs <;> rfl

theorem applyRaw_SR_trackLength (d : DeckState) (v : Value)
    (h : (0:ℚ) < (jsParseIntD v : Int)) :
    (applyRawDeckField d "SampleRate" v).trackLength
      = if d.trackLengthRaw ≠ 0 then d.trackLengthRaw / ((jsParseIntD v : Int) : ℚ)
        else d.trackLength := by
  rw [applyRaw_SR_eq]
  simp only [h, if_true]
  split_ifs <;> simp_all

theorem applyRaw_SR_cuePosition (d : DeckState) (v : Value)
    (h : (0:ℚ) < (jsParseIntD v : Int)) :
    (applyRawDeckField d "SampleRate" v).cuePosition
      = if d.cuePositionRaw ≠ 0 then d.cuePositionRaw / ((jsParseIntD v : Int) : ℚ)
        else d.cuePosition := by
  rw [applyRaw_SR_eq]
  simp only [h, if_true]
  split_ifs <;> simp_all

theorem applyRaw_SR_loopIn (d : DeckState) (v : Value)
    (h : (0:ℚ) < (jsParseIntD v : Int)) :
    (applyRawDeckField d "SampleRate" v).currentLoopInPosition
      = if d.loopInRaw ≠ 0 then d.loopInRaw / ((jsParseIntD v : Int) : ℚ)
        else d.currentLoopInPosition := by
  rw [applyRaw_SR_eq]
  simp only [h, if_true]
  split_ifs <;> simp_all

theorem applyRaw_SR_loopOut (d : DeckState) (v : Value)
    (h : (0:ℚ) < (jsParseIntD v : Int)) :
    (applyRawDeckField d "SampleRate" v).currentLoopOutPosition
      = if d.loopOutRaw ≠ 0 then d.loopOutRaw / ((jsParseIntD v : Int) : ℚ)
        else d.currentLoopOutPosition := by
  rw [applyRaw_SR_eq]
  simp only [h, if_true]
  split_ifs <;> simp_all

/-- Pointwise description of the hotcue loop's fold. -/
theorem foldl_applyHotcue (st : PlayerStatus) (l : List Int) (m : Int → Option Value) (j : Int) :
    (l.foldl (applyHotcue st) m) j
      = if j ∈ l ∧ hotcueTruthy st j then st.hotcueAt j else m j := by
  induction l generalizing m with
  | nil => simp
  | cons a l ih =>
    rw [List.foldl_cons, ih]
    have hstep : (applyHotcue st m a) j
        = if j = a ∧ hotcueTruthy st j then st.hotcueAt j else m j := by
      unfold applyHotcue
      by_cases hja : j = a
      · subst hja
        cases hv : st.hotcueAt j with
        | none => simp [hotcueTruthy, hv]
        | some v =>
          by_cases ht : jsTruthy v
          · simp [hotcueTruthy, hv, ht, Function.update]
          · simp [hotcueTruthy, hv, ht]
      · cases hv : st.hotcueAt a with
        | none => simp [hja]
        | some v =>
          by_cases ht : jsTruthy v
          · simp [hja, ht, Function.update, hv]
          · simp [hja, ht, hv]
    rw [hstep]
    by_cases hl : j ∈ l <;> by_cases ht : hotcueTruthy st j <;> by_cases hja : j = a <;>
      simp_all [List.mem_cons]

theorem hotcueAt_eq_none (st : PlayerStatus) (i : Int)
    (h : i ∉ ([1, 2, 3, 4, 5, 6, 7, 8] : List Int)) : st.hotcueAt i = none := by
  simp only [List.mem_cons, List.not_mem_nil, or_false, not_or] at h
  obtain ⟨n1, n2, n3, n4, n5, n6, n7, n8⟩ := h
  simp [PlayerStatus.hotcueAt, n1, n2, n3, n4, n5, n6, n7, n8]

/-! ## Claim theorems -/

/-- C1: for any deck, applying a sample-domain raw update (track length,
cue position, loop-in or loop-out) followed by a positive sample-rate
update yields the same derived seconds value (raw / sampleRate) for that
field as applying the two updates in the reverse order. -/
theorem samplerate_order_independence (d : DeckState) (rawV srV : Value)
    (hsr : 0 < jsParseIntD srV) :
    ((applyRawDeckField (applyRawDeckField d "TrackLength" rawV) "SampleRate" srV).trackLength
        = jsParseFloatD rawV / ((jsParseIntD srV : Int) : ℚ) ∧
      (applyRawDeckField (applyRawDeckField d "SampleRate" srV) "TrackLength" rawV).trackLength
        = jsParseFloatD rawV / ((jsParseIntD srV : Int) : ℚ)) ∧
    ((applyRawDeckField (applyRawDeckField d "CuePosition" rawV) "SampleRate" srV).cuePosition
        = jsParseFloatD rawV / ((jsParseIntD srV : Int) : ℚ) ∧
      (applyRawDeckField (applyRawDeckField d "SampleRate" srV) "CuePosition" rawV).cuePosition
        = jsParseFloatD rawV / ((jsParseIntD srV : Int) : ℚ)) ∧
    ((applyRawDeckField (applyRawDeckField d "CurrentLoopInPosition" rawV)
          "SampleRate" srV).currentLoopInPosition
        = jsParseFloatD rawV / ((jsParseIntD srV : Int) : ℚ) ∧
      (applyRawDeckField (applyRawDeckField d "SampleRate" srV)
          "CurrentLoopInPosition" rawV).currentLoopInPosition
        = jsParseFloatD rawV / ((jsParseIntD srV : Int) : ℚ)) ∧
    ((applyRawDeckField (applyRawDeckField d "CurrentLoopOutPosition" rawV)
          "SampleRate" srV).currentLoopOutPosition
        = jsParseFloatD rawV / ((jsParseIntD srV : Int) : ℚ) ∧
      (applyRawDeckField (applyRawDeckField d "SampleRate" srV)
          "CurrentLoopOutPosition" rawV).currentLoopOutPosition
        = jsParseFloatD rawV / ((jsParseIntD srV : Int) : ℚ)) := by
  have hq : (0:ℚ) < (jsParseIntD srV : Int) := by exact_mod_cast hsr
  refine ⟨⟨?_, ?_⟩, ⟨?_, ?_⟩, ⟨?_, ?_⟩, ⟨?_, ?_⟩⟩
  · rw [applyRaw_SR_trackLength _ _ hq, applyRaw_TL_raw, applyRaw_TL_trackLength]
    by_cases hr : jsParseFloatD rawV = 0 <;> simp [hr]
  · rw [applyRaw_TL_trackLength, applyRaw_SR_sr]
    simp [hq]
  · rw [applyRaw_SR_cuePosition _ _ hq, applyRaw_Cue_raw, applyRaw_Cue_cuePosition]
    by_cases hr : jsParseFloatD rawV = 0 <;> simp [hr]
  · rw [applyRaw_Cue_cuePosition, applyRaw_SR_sr]
    simp [hq]
  · rw [applyRaw_SR_loopIn _ _ hq, applyRaw_LoopIn_raw, applyRaw_LoopIn_pos]
    by_cases hr : jsParseFloatD rawV = 0 <;> simp [hr]
  · rw [applyRaw_LoopIn_pos, applyRaw_SR_sr]
    simp [hq]
  · rw [applyRaw_SR_loopOut _ _ hq, applyRaw_LoopOut_raw, applyRaw_LoopOut_pos]
    by_cases hr : jsParseFloatD rawV = 0 <;> simp [hr]
  · rw [applyRaw_LoopOut_pos, applyRaw_SR_sr]
    simp [hq]

/-- Witness for C1 at a concrete raw track length and sample rate. -/
theorem samplerate_order_independence_witness :
    0 < jsParseIntD (.str "44100") ∧
    (applyRawDeckField (applyRawDeckField emptyDeck "TrackLength" (.str "26400000"))
        "SampleRate" (.str "44100")).trackLength
      = jsParseFloatD (.str "26400000") / ((jsParseIntD (.str "44100") : Int) : ℚ) :=
  ⟨by decide,
    (samplerate_order_independence emptyDeck (.str "26400000") (.str "44100") (by decide)).1.1⟩

/-- C2 counterexample: when a single status update carries both a
(nonempty) track path and a (nonempty) file location, the display URI
ends up equal to the file-location value, not the track-path value. -/
theorem trackuri_precedence_counterexample :
    ((applyPlayerStatus createEmptyState
        { deck := some (.str "A"), trackPath := some "p.mp3",
          fileLocation := some "f.mp3" }).decks.d1).trackUri
      = "f.mp3" ∧ ("f.mp3" : String) ≠ "p.mp3" := by
  refine ⟨rfl, by decide⟩

/-- C2 (amended): when a single status update contains both a track-path
and a file-location field, the deck's display URI ends up equal to the
file-location value whenever that value is truthy (nonempty); only a
falsy (empty) file location leaves the URI at the track-path value. -/
theorem trackuri_precedence_amended (s : AppState) (p f : String) :
    ((applyPlayerStatus s
        { deck := some (.str "A"), trackPath := some p,
          fileLocation := some f }).decks.d1).trackUri
      = if f = "" then p else f := by
  simp only [applyPlayerStatus, resolveDeckNumber, jsTruthy, jsToString, deckLetterMap,
    Decks.get?, Decks.set, mergeStatusDeck, applyHotcue, PlayerStatus.hotcueAt]
  split_ifs <;> simp_all

/-- C3 counterexample: the claim's characterization of the reset deck as
having all numeric fields equal to 0 fails — after a reset the key index
field holds -1, not 0. -/
theorem full_reset_counterexample :
    ((stopState (applyRawDeckUpdate createEmptyState 1 "CurrentBPM" (.num 128))).decks.d1).currentKeyIndex
      = some (-1) ∧
    ((stopState (applyRawDeckUpdate createEmptyState 1 "CurrentBPM" (.num 128))).decks.d1).currentKeyIndex
      ≠ some 0 :=
  ⟨rfl, by decide⟩

/-- C3 (amended): after a reset, every deck equals the initial empty
deck, whose defaults are: all boolean fields false, all string fields
empty, all numeric fields 0 except the key index which defaults to -1,
null artwork/jog color and an empty hotcue map — regardless of the state
immediately prior to the reset. -/
theorem full_reset_amended (s : AppState) :
    stopState s = createEmptyState ∧
    (stopState s).decks.d1 = emptyDeck ∧ (stopState s).decks.d2 = emptyDeck ∧
    (stopState s).decks.d3 = emptyDeck ∧ (stopState s).decks.d4 = emptyDeck ∧
    (emptyDeck.songLoaded = false ∧ emptyDeck.songAnalyzed = false ∧
      emptyDeck.play = false ∧ emptyDeck.playState = false ∧
      emptyDeck.deckIsMaster = false ∧ emptyDeck.keyLock = false ∧
      emptyDeck.externalScratchWheelTouch = false ∧ emptyDeck.loopEnableState = false ∧
      emptyDeck.trackName = "" ∧ emptyDeck.artistName = "" ∧ emptyDeck.songName = "" ∧
      emptyDeck.trackUri = "" ∧ emptyDeck.trackNetworkPath = "" ∧
      emptyDeck.currentKey = "" ∧ emptyDeck.dbSourceName = "" ∧ emptyDeck.trackPath = "" ∧
      emptyDeck.trackLength = 0 ∧ emptyDeck.sampleRate = 0 ∧
      emptyDeck.currentPosition = 0 ∧ emptyDeck.currentBPM = 0 ∧ emptyDeck.trackBPM = 0 ∧
      emptyDeck.speed = 0 ∧ emptyDeck.speedRange = 0 ∧ emptyDeck.syncMode = 0 ∧
      emptyDeck.masterTempo = 0 ∧ emptyDeck.externalMixerVolume = 0 ∧
      emptyDeck.cuePosition = 0 ∧ emptyDeck.cuePositionRaw = 0 ∧
      emptyDeck.currentLoopInPosition = 0 ∧ emptyDeck.currentLoopOutPosition = 0 ∧
      emptyDeck.currentLoopSizeInBeats = 0 ∧ emptyDeck.trackLengthRaw = 0 ∧
      emptyDeck.loopInRaw = 0 ∧ emptyDeck.loopOutRaw = 0 ∧
      emptyDeck.beatPosition = 0 ∧ emptyDeck.totalBeats = 0 ∧
      emptyDeck.currentKeyIndex = some (-1) ∧
      emptyDeck.artwork = .null ∧ emptyDeck.jogColor = .null ∧
      emptyDeck.hotcues = fun _ => none) :=
  ⟨rfl, rfl, rfl, rfl, rfl,
    rfl, rfl, rfl, rfl, rfl, rfl, rfl, rfl, rfl, rfl, rfl, rfl, rfl, rfl, rfl, rfl,
    rfl, rfl, rfl, rfl, rfl, rfl, rfl, rfl, rfl, rfl, rfl, rfl, rfl, rfl, rfl, rfl,
    rfl, rfl, rfl, rfl, rfl, rfl, rfl, rfl⟩

/-- C4: a raw state change on path `.../Deck1/Track/CurrentBPM` with
value 128.0 sets that deck's trackBPM field to 128.0 and leaves the
deck's currentBPM field unchanged. -/
theorem track_current_bpm_isolation (s : AppState) :
    ((processRawStateChange s "/Engine/Deck1/Track/CurrentBPM" (.num 128)).decks.d1).trackBPM
      = 128 ∧
    ((processRawStateChange s "/Engine/Deck1/Track/CurrentBPM" (.num 128)).decks.d1).currentBPM
      = (s.decks.d1).currentBPM := by
  rw [processRawStateChange,
    show matchEngineDeck "/Engine/Deck1/Track/CurrentBPM" = some (1, "Track/CurrentBPM")
      from by decide]
  constructor <;>
    simp [applyRawDeckUpdate, Decks.get?, Decks.set,
      show normalizeEngineKey "Track/CurrentBPM" = "TrackBPM" from by decide,
      applyRawDeckField, jsParseFloatD, jsParseFloat]

/-- C5: the player-status merge of the play field is presence-based: a
status update for deck A with play present and false sets play to false,
while a status update for deck A without a play field leaves play at its
prior value. -/
theorem play_merge_presence (s : AppState) :
    ((applyPlayerStatus s { deck := some (.str "A"), play := some false }).decks.d1).play
      = false ∧
    ((applyPlayerStatus s { deck := some (.str "A") }).decks.d1).play = (s.decks.d1).play := by
  constructor <;>
    simp [applyPlayerStatus, resolveDeckNumber, jsTruthy, jsToString, deckLetterMap,
      Decks.get?, Decks.set, mergeStatusDeck, applyHotcue, PlayerStatus.hotcueAt]

/-- C6: BPM-like fields are merged only when strictly positive: a status
update for deck A carrying trackBpm/currentBpm q sets the corresponding
deck field to q exactly when 0 < q and otherwise leaves it at its prior
value (so trackBpm 0 does not stomp a stored 128), and a status update
with the BPM fields absent leaves both at their prior values. -/
theorem bpm_positive_guard (s : AppState) (q : ℚ) :
    ((applyPlayerStatus s
        { deck := some (.str "A"), currentBpm := some q, trackBpm := some q }).decks.d1).trackBPM
      = (if 0 < q then q else (s.decks.d1).trackBPM) ∧
    ((applyPlayerStatus s
        { deck := some (.str "A"), currentBpm := some q, trackBpm := some q }).decks.d1).currentBPM
      = (if 0 < q then q else (s.decks.d1).currentBPM) ∧
    ((applyPlayerStatus s { deck := some (.str "A") }).decks.d1).trackBPM
      = (s.decks.d1).trackBPM ∧
    ((applyPlayerStatus s { deck := some (.str "A") }).decks.d1).currentBPM
      = (s.decks.d1).currentBPM := by
  refine ⟨?_, ?_, ?_, ?_⟩ <;>
    (simp [applyPlayerStatus, resolveDeckNumber, jsTruthy, jsToString, deckLetterMap,
      Decks.get?, Decks.set, mergeStatusDeck, applyHotcue, PlayerStatus.hotcueAt]
     try (split_ifs <;> simp_all))

/-- C7: every key index 0..23 resolves to a non-empty label; every index
outside 0..23 resolves to the empty string (resolution is a total
function, so it never raises). -/
theorem key_index_resolution (i : Int) :
    (0 ≤ i ∧ i ≤ 23 → keyLabel i ≠ "") ∧ ((i < 0 ∨ 23 < i) → keyLabel i = "") := by
  constructor
  · rintro ⟨h1, h2⟩
    interval_cases i <;> decide
  · rintro (h | h) <;>
      (simp only [keyLabel, KEY_MAP]
       repeat rw [if_neg (by omega)]
       rfl)

/-- Witness for C7 at an in-range and an out-of-range index. -/
theorem key_index_resolution_witness :
    keyLabel 5 ≠ "" ∧ keyLabel 24 = "" :=
  ⟨(key_index_resolution 5).1 ⟨by decide, by decide⟩,
    (key_index_resolution 24).2 (Or.inr (by decide))⟩

/-- C8: a status update whose deck identifier does not resolve to a
tracked deck slot (no deck/player field, an unmappable letter, a falsy
parsed player number, or a number with no tracked slot) is dropped
wholesale: the state tree is unchanged. -/
theorem unresolvable_status_drop (s : AppState) (st : PlayerStatus)
    (h : ∀ n, resolveDeckNumber st = some n → s.decks.get? n = none) :
    applyPlayerStatus s st = s := by
  unfold applyPlayerStatus
  cases hr : resolveDeckNumber st with
  | none => rfl
  | some n =>
    have hg := h n hr
    by_cases hn : n = 0 <;> simp [hn, hg]

/-- Witness for C8: a status naming the unmappable deck letter E is
dropped. -/
theorem unresolvable_status_drop_witness :
    applyPlayerStatus createEmptyState { deck := some (.str "E") } = createEmptyState :=
  unresolvable_status_drop createEmptyState _ (by
    intro n hn
    rw [show resolveDeckNumber { deck := some (.str "E") } = none from by decide] at hn
    exact Option.noConfusion hn)

/-- C9: frame property of the reducers: a raw deck update for deck n
leaves every other deck slot, the mixer record and the device record
unchanged; a mixer update leaves all deck slots and the device record
unchanged. -/
theorem reducer_frame (s : AppState) (n : Int) (key : String) (v : Value) (m : Int)
    (h : m ≠ n) :
    ((applyRawDeckUpdate s n key v).decks.get? m = s.decks.get? m ∧
      (applyRawDeckUpdate s n key v).mixer = s.mixer ∧
      (applyRawDeckUpdate s n key v).device = s.device) ∧
    ∀ (mk : String) (mv : Value),
      (applyMixerUpdate s mk mv).decks = s.decks ∧
      (applyMixerUpdate s mk mv).device = s.device := by
  refine ⟨⟨?_, ?_, ?_⟩, fun mk mv => ⟨rfl, rfl⟩⟩ <;>
    (unfold applyRawDeckUpdate
     cases hg : s.decks.get? n)
  · rfl
  · exact Decks.get_set_ne s.decks n m _ h
  · rfl
  · rfl
  · rfl
  · rfl

/-- Witness for C9 at a concrete update on deck 1 observed from deck 2. -/
theorem reducer_frame_witness :
    (applyRawDeckUpdate createEmptyState 1 "Play" (.bool true)).decks.get? 2
      = createEmptyState.decks.get? 2 :=
  ((reducer_frame createEmptyState 1 "Play" (.bool true) 2 (by decide)).1).1

/-- C10: hotcue merging is truthiness-based: for any status update for
deck A carrying hotcue descriptors, the deck's hotcue mapping at index i
becomes the status's hotcue-i descriptor exactly when that field is
present and truthy, and is left untouched when the field is absent or
present but falsy. -/
theorem hotcue_merge_truthiness (s : AppState) (h1 h2 h3 h4 h5 h6 h7 h8 : Option Value)
    (i : Int) :
    ((applyPlayerStatus s (hotcueStatus h1 h2 h3 h4 h5 h6 h7 h8)).decks.d1).hotcues i
      = if hotcueTruthy (hotcueStatus h1 h2 h3 h4 h5 h6 h7 h8) i
        then (hotcueStatus h1 h2 h3 h4 h5 h6 h7 h8).hotcueAt i
        else (s.decks.d1).hotcues i := by
  have hs : ((applyPlayerStatus s (hotcueStatus h1 h2 h3 h4 h5 h6 h7 h8)).decks.d1).hotcues
      = [1, 2, 3, 4, 5, 6, 7, 8].foldl (applyHotcue (hotcueStatus h1 h2 h3 h4 h5 h6 h7 h8))
          (s.decks.d1).hotcues := rfl
  rw [hs, foldl_applyHotcue]
  by_cases hmem : i ∈ ([1, 2, 3, 4, 5, 6, 7, 8] : List Int)
  · simp [hmem]
  · have hn := hotcueAt_eq_none (hotcueStatus h1 h2 h3 h4 h5 h6 h7 h8) i hmem
    simp [hmem, hotcueTruthy, hn]

end Mixboard
